import Mathlib

/-!
Verification of the airbnb dashboard data pipeline.

This file gives a shallow embedding of the three source files of the
repository — `db_utils.py` (database access layer), `server.py` (the Flask
aggregation endpoint) and `dashboard.py` (the Dash visualization client) —
and proves theorems checking the specification's claims against the code.

Numbers are modelled as rationals, Python dicts as association lists, and
raised exceptions as `Except.error` carrying the rendered exception text.
-/

namespace AirbnbDashboard

/-- JSON-like values as exchanged between the database layer, the HTTP
endpoint and the visualization client. -/
inductive Json where
  | null : Json
  | str (s : String) : Json
  | num (q : ℚ) : Json
  | arr (xs : List Json) : Json
  | obj (fields : List (String × Json)) : Json

/-- Python dict lookup `d[k]`: the value stored under `k`, or a raised
`KeyError` (modelled as `Except.error` with the exception text). -/
def dictGet (d : List (String × Json)) (k : String) : Except String Json :=
  match d.find? (fun kv => kv.1 == k) with
  | some kv => Except.ok kv.2
  | none => Except.error (String.append "KeyError: " k)

/-! ## Data access layer: `db_utils.py`

`execute_query` opens its own connection, executes one statement through a
`RealDictCursor`, fetches all rows when the statement produces a result set
(`cursor.description` is not `None`), commits, and closes the connection in
a `finally` block.  The driver's behaviour for one call is abstracted into
`DBBehavior`; the function returns the Python return value (or the
propagated exception) together with the trace of connection events. -/

/-- Events on the database connection, in the order `execute_query`
performs them. -/
inductive DBEvent where
  | openConn : DBEvent
  | execute : DBEvent
  | fetchall : DBEvent
  | commit : DBEvent
  | closeConn : DBEvent
  deriving DecidableEq

/-- One call's worth of database-driver behaviour: whether
`psycopg2.connect`, `cursor.execute` and `conn.commit` succeed, the output
column names when the statement produces a result set (`colNames = none`
models `cursor.description` being `None`), and the raw value rows the
cursor would fetch.  `RealDictCursor` turns each raw row into a mapping by
pairing the column names with the row's values. -/
structure DBBehavior where
  connectOutcome : Except String Unit
  execOutcome : Except String Unit
  colNames : Option (List String)
  rawRows : List (List Json)
  commitOutcome : Except String Unit

/-- `db_utils.execute_query(query, data)`.  The first component is the
value returned to the caller (or the exception that propagates); the
second is the trace of connection events, with `conn.close()` emitted by
the `finally` block on every path that opened a connection. -/
def execute_query (b : DBBehavior) :
    Except String (Option (List (List (String × Json)))) × List DBEvent :=
  match b.connectOutcome with
  | Except.error e => (Except.error e, [])
  | Except.ok _ =>
    match b.execOutcome with
    | Except.error e =>
        (Except.error e, [DBEvent.openConn, DBEvent.execute, DBEvent.closeConn])
    | Except.ok _ =>
      match b.colNames with
      | some cols =>
        match b.commitOutcome with
        | Except.error e =>
            (Except.error e,
              [DBEvent.openConn, DBEvent.execute, DBEvent.fetchall,
                DBEvent.commit, DBEvent.closeConn])
        | Except.ok _ =>
            (Except.ok (some (b.rawRows.map (fun r => cols.zip r))),
              [DBEvent.openConn, DBEvent.execute, DBEvent.fetchall,
                DBEvent.commit, DBEvent.closeConn])
      | none =>
        match b.commitOutcome with
        | Except.error e =>
            (Except.error e,
              [DBEvent.openConn, DBEvent.execute, DBEvent.commit,
                DBEvent.closeConn])
        | Except.ok _ =>
            (Except.ok none,
              [DBEvent.openConn, DBEvent.execute, DBEvent.commit,
                DBEvent.closeConn])

/-- A concrete behaviour where the connection opens but the commit fails. -/
def commitFailBehavior : DBBehavior :=
  ⟨Except.ok (), Except.ok (), some ["neighborhood_name"],
    [[Json.str "Five Points"]], Except.error "commit failed"⟩

/-- A concrete fully successful behaviour with a two-column result set. -/
def okBehavior : DBBehavior :=
  ⟨Except.ok (), Except.ok (), some ["neighborhood_name", "longitude"],
    [[Json.str "Five Points", Json.num 1], [Json.str "Highland", Json.num 2]],
    Except.ok ()⟩

/-! ## Aggregation endpoint: `server.py`

At startup the server loads `seed/denver_neighborhoods.geojson` once; a
missing file leaves `geojson_data = None` for the process lifetime.
`GET /locations/average` runs a fixed SQL query — inner join of `listings`
to `locations` on `location_id`, grouped by neighborhood name / longitude /
latitude, averaging `review_scores_rating` and `price`, ordered by
neighborhood name ascending — then rebuilds each row into a response dict
and returns `{data, geojson}`.  Any exception in the `try` block becomes an
HTTP 500 with the exception's text. -/

/-- A row of the `listings` table (the columns the query touches). -/
structure Listing where
  location_id : Int
  review_scores_rating : ℚ
  price : ℚ
  deriving DecidableEq

/-- A row of the `locations` table (the columns the query touches). -/
structure LocationRow where
  location_id : Int
  neighborhood_name : String
  longitude : ℚ
  latitude : ℚ
  deriving DecidableEq

/-- The database state the fixed aggregation query reads. -/
structure Database where
  listings : List Listing
  locations : List LocationRow

/-- The inner join `listings l JOIN locations loc ON l.location_id =
loc.location_id`: every pair of rows agreeing on `location_id`. -/
def joinedRows (db : Database) : List (Listing × LocationRow) :=
  db.listings.flatMap (fun l =>
    (db.locations.filter (fun loc => loc.location_id == l.location_id)).map
      (fun loc => (l, loc)))

/-- The GROUP BY key of the query: (neighborhood_name, longitude,
latitude) of the joined `locations` row. -/
def keyOf (p : Listing × LocationRow) : String × ℚ × ℚ :=
  (p.2.neighborhood_name, p.2.longitude, p.2.latitude)

/-- The group of joined rows sharing a GROUP BY key. -/
def groupFor (db : Database) (k : String × ℚ × ℚ) : List (Listing × LocationRow) :=
  (joinedRows db).filter (fun p => decide (keyOf p = k))

/-- Arithmetic mean of a list of rationals (SQL `AVG`). -/
def listAvg (xs : List ℚ) : ℚ :=
  xs.sum / (xs.length : ℚ)

/-- Lexicographic comparison of character lists by code point, modelling
the database's ascending text collation for `ORDER BY`. -/
def charListLe : List Char → List Char → Bool
  | [], _ => true
  | _ :: _, [] => false
  | c :: cs, d :: ds =>
      if c.val.toNat < d.val.toNat then true
      else if d.val.toNat < c.val.toNat then false
      else charListLe cs ds

/-- Ascending string order: lexicographic by code point. -/
def strLe (a b : String) : Prop :=
  charListLe a.data b.data = true

/-- `ORDER BY loc.neighborhood_name` ascending: comparison of group keys
by their neighborhood name. -/
def keyLE (a b : String × ℚ × ℚ) : Prop :=
  strLe a.1 b.1

instance : DecidableRel keyLE :=
  fun a b => inferInstanceAs (Decidable (charListLe a.1.data b.1.data = true))

/-- The distinct GROUP BY keys of the query, ordered by neighborhood name
ascending. -/
def sortedKeys (db : Database) : List (String × ℚ × ℚ) :=
  List.insertionSort keyLE (((joinedRows db).map keyOf).dedup)

/-- One output row of the aggregation query. -/
structure LocationEntry where
  neighborhood_name : String
  average_rating : ℚ
  average_price : ℚ
  longitude : ℚ
  latitude : ℚ
  deriving DecidableEq

/-- The aggregation query's output row for one GROUP BY key. -/
def mkEntry (db : Database) (k : String × ℚ × ℚ) : LocationEntry :=
  ⟨k.1, listAvg ((groupFor db k).map (fun p => p.1.review_scores_rating)),
    listAvg ((groupFor db k).map (fun p => p.1.price)), k.2.1, k.2.2⟩

/-- All output rows of the aggregation query, in result order. -/
def dataEntries (db : Database) : List LocationEntry :=
  (sortedKeys db).map (mkEntry db)

/-- The `RealDictCursor` mapping for one query output row, keyed by the
query's output column names in SELECT order. -/
def rowDictOf (e : LocationEntry) : List (String × Json) :=
  [("neighborhood_name", Json.str e.neighborhood_name),
    ("longitude", Json.num e.longitude),
    ("latitude", Json.num e.latitude),
    ("average_rating", Json.num e.average_rating),
    ("average_price", Json.num e.average_price)]

/-- The row dicts `execute_query` hands back to the endpoint for the fixed
aggregation query against database state `db`. -/
def runAverageQuery (db : Database) : List (List (String × Json)) :=
  (dataEntries db).map rowDictOf

/-- The response dict the endpoint's loop builds for one entry, with the
keys in the order `server.py` writes them. -/
def entryAssoc (e : LocationEntry) : List (String × Json) :=
  [("neighborhood_name", Json.str e.neighborhood_name),
    ("average_rating", Json.num e.average_rating),
    ("average_price", Json.num e.average_price),
    ("longitude", Json.num e.longitude),
    ("latitude", Json.num e.latitude)]

/-- The `for row in results` loop of `get_average_ratings`: reads the five
keys from each row dict and appends a response dict; a missing key raises
`KeyError`, aborting the whole response. -/
def buildLocationData : List (List (String × Json)) → Except String (List Json)
  | [] => Except.ok []
  | row :: rest => do
      let n ← dictGet row "neighborhood_name"
      let r ← dictGet row "average_rating"
      let p ← dictGet row "average_price"
      let lon ← dictGet row "longitude"
      let lat ← dictGet row "latitude"
      let tail ← buildLocationData rest
      Except.ok (Json.obj [("neighborhood_name", n), ("average_rating", r),
        ("average_price", p), ("longitude", lon), ("latitude", lat)] :: tail)

/-- An HTTP response of the endpoint, plus whether the handler reached the
database query (it does not when the boundary file was never loaded). -/
structure EndpointResult where
  status : Nat
  body : Json
  queryAttempted : Bool

/-- Startup: load the boundary feature collection once; a missing file
leaves the module-level `geojson_data` as `None`. -/
def loadGeoJson (fileFound : Bool) (contents : Json) : Option Json :=
  if fileFound then some contents else none

/-- `GET /locations/average`.  `geojson_data` is the process-wide value
loaded at startup; `dbOutcome` is what the `execute_query` call produces
for this request (rows, or a raised exception's text). -/
def get_average_ratings (geojson_data : Option Json)
    (dbOutcome : Except String (List (List (String × Json)))) : EndpointResult :=
  match geojson_data with
  | none => ⟨500, Json.obj [("error", Json.str "GeoJSON data not found")], false⟩
  | some g =>
    match dbOutcome with
    | Except.error e => ⟨500, Json.obj [("error", Json.str e)], true⟩
    | Except.ok rows =>
      match buildLocationData rows with
      | Except.error e => ⟨500, Json.obj [("error", Json.str e)], true⟩
      | Except.ok locationData =>
          ⟨200, Json.obj [("data", Json.arr locationData), ("geojson", g)], true⟩

/-- `GET /`: a fixed greeting with HTTP 200. -/
def hello_world : Nat × String :=
  (200, "Hello, World!")

/-- A sequence of requests served against the one process-wide
`geojson_data` value: each request is handled independently. -/
def serveRequests (geojson_data : Option Json)
    (outcomes : List (Except String (List (List (String × Json))))) :
    List EndpointResult :=
  outcomes.map (get_average_ratings geojson_data)

/-- A concrete database: three listings over two locations.  "Five
Points" carries ratings 4 and 5 and prices 100 and 150; "Highland"
carries rating 3 and price 80. -/
def dbEx : Database :=
  ⟨[⟨1, 4, 100⟩, ⟨1, 5, 150⟩, ⟨2, 3, 80⟩],
    [⟨1, "Five Points", 10, 20⟩, ⟨2, "Highland", 30, 40⟩]⟩

/-- A concrete boundary feature collection value. -/
def gEx : Json :=
  Json.obj [("type", Json.str "FeatureCollection")]

/-- The GROUP BY key of "Five Points" in `dbEx`. -/
def fivePointsKey : String × ℚ × ℚ :=
  ("Five Points", 10, 20)

/-- The GROUP BY key of "Highland" in `dbEx`. -/
def highlandKey : String × ℚ × ℚ :=
  ("Highland", 30, 40)

/-! ## Visualization client: `dashboard.py`

The client fetches `/locations/average` once at startup, then builds a
choropleth (`create_map`) and a dynamic table (`create_table`) from the
envelope's `data` list.  Aggregates are the decoded JSON dicts; a missing
dict key raises `KeyError` and the page fails to render. -/

/-- Total dict lookup: the value stored under `k`, used to describe the
output of lookups already known to succeed. -/
def dictGetD (d : List (String × Json)) (k : String) : Json :=
  match d.find? (fun kv => kv.1 == k) with
  | some kv => kv.2
  | none => Json.null

/-- One list comprehension `[location[k] for location in locations]`: the
values under `k`, aborted by the first missing key. -/
def lookupEach (k : String) :
    List (List (String × Json)) → Except String (List Json)
  | [] => Except.ok []
  | l :: ls => do
      let v ← dictGet l k
      let vs ← lookupEach k ls
      Except.ok (v :: vs)

/-- The comprehension `[[location[k]] for location in locations]`: the
values under `k`, each wrapped in a singleton list, aborted by the first
missing key. -/
def lookupEachSingleton (k : String) :
    List (List (String × Json)) → Except String (List (List Json))
  | [] => Except.ok []
  | l :: ls => do
      let v ← dictGet l k
      let vs ← lookupEachSingleton k ls
      Except.ok ([v] :: vs)

/-- The rendered choropleth figure state after `go.Figure`,
`fig.update_layout` and `fig.update_traces` in `create_map`. -/
structure ChoroplethMap where
  geojson : Json
  locations : List Json
  z : List Json
  featureidkey : String
  colorscale : String
  customdata : List (List Json)
  mapbox_style : String
  mapbox_zoom : ℚ
  mapbox_center_lat : ℚ
  mapbox_center_lon : ℚ
  hovertemplate : String

/-- `create_map(locations, geojson_data)`: reads each aggregate's
`neighbourhood` key into the choropleth's location ids (matched against
`properties.neighbourhood` of the boundary features), `average_rating`
into the color value `z`, and `average_price` into `customdata`; the
viewport center and zoom are fixed literals, and the hover template
formats rating and price to two decimal places. -/
def create_map (locations : List (List (String × Json))) (geojson_data : Json) :
    Except String ChoroplethMap := do
  let locNames ← lookupEach "neighbourhood" locations
  let zs ← lookupEach "average_rating" locations
  let cds ← lookupEachSingleton "average_price" locations
  Except.ok
    { geojson := geojson_data
      locations := locNames
      z := zs
      featureidkey := "properties.neighbourhood"
      colorscale := "Viridis"
      customdata := cds
      mapbox_style := "carto-positron"
      mapbox_zoom := 10
      mapbox_center_lat := 397392 / 10000
      mapbox_center_lon := -1049903 / 10000
      hovertemplate := "<b>%\x7blocation\x7d</b><br>Average Rating: %\x7bz:.2f\x7d<br>Average Price: %\x7bcustomdata[0]:.2f\x7d" }

/-- A column descriptor for the dynamic table: display label and the key
read from each aggregate (one element of `create_table`'s `keys`). -/
structure ColumnKey where
  label : String
  value : String

/-- A rendered HTML table: the header rows inside `html.Thead` (each a
list of `html.Th` cell texts) and the body rows inside `html.Tbody`
(each a list of `html.Td` cell values). -/
structure HtmlTable where
  headerRows : List (List String)
  bodyRows : List (List Json)

/-- Cells of one body row:
`[html.Td(location[key['value']]) for key in keys]`. -/
def rowCells (location : List (String × Json)) :
    List ColumnKey → Except String (List Json)
  | [] => Except.ok []
  | k :: ks => do
      let v ← dictGet location k.value
      let vs ← rowCells location ks
      Except.ok (v :: vs)

/-- The body rows: one `html.Tr` per aggregate, in order. -/
def bodyRowsOf (keys : List ColumnKey) :
    List (List (String × Json)) → Except String (List (List Json))
  | [] => Except.ok []
  | l :: ls => do
      let r ← rowCells l keys
      let rs ← bodyRowsOf keys ls
      Except.ok (r :: rs)

/-- `create_table(locations, keys)`: one `html.Thead` row holding the
descriptor labels, and one body row per aggregate reading each
descriptor's `value` key (the Python default for `keys` is the single
descriptor `{label: 'Test Label', value: 'test_value'}`). -/
def create_table (locations : List (List (String × Json)))
    (keys : List ColumnKey) : Except String HtmlTable := do
  let rows ← bodyRowsOf keys locations
  Except.ok ⟨[keys.map (fun k => k.label)], rows⟩

/-- The column descriptors `app.layout` passes to `create_table`. -/
def layoutTableKeys : List ColumnKey :=
  [⟨"Neighbourhood", "neighbourhood"⟩, ⟨"Average Rating", "average_rating"⟩,
    ⟨"Average Price", "average_price"⟩]

/-- The aggregates the client receives from a successful response:
`response.json()['data']`, one dict per entry. -/
def serverAggregates (db : Database) : List (List (String × Json)) :=
  (dataEntries db).map entryAssoc

/-- An aggregate dict spelled with the client's `neighbourhood` key. -/
def aggA : List (String × Json) :=
  [("neighbourhood", Json.str "Five Points"), ("average_rating", Json.num 4),
    ("average_price", Json.num 125)]

/-- A second aggregate dict with the client's `neighbourhood` key. -/
def aggB : List (String × Json) :=
  [("neighbourhood", Json.str "Highland"), ("average_rating", Json.num 3),
    ("average_price", Json.num 80)]

/-- An aggregate dict carrying the key `neighborhood` (the claim's
spelling) together with the rating and price keys. -/
def aggAmerican : List (String × Json) :=
  [("neighborhood", Json.str "Five Points"), ("average_rating", Json.num 4),
    ("average_price", Json.num 100)]

/-- An aggregate dict lacking the `average_price` key. -/
def aggNoPrice : List (String × Json) :=
  [("neighbourhood", Json.str "Five Points"), ("average_rating", Json.num 4)]

/-- Claim C1: for every call to `execute_query` in which the connection
opens successfully, whatever happens afterwards (query error, commit error,
or success), the trace of connection events begins by opening the
connection and ends by closing it — the connection is closed before the
call returns or before the error propagates to the caller. -/
theorem execute_query_always_closes (b : DBBehavior)
    (h : b.connectOutcome = Except.ok ()) :
    (execute_query b).2.head? = some DBEvent.openConn ∧
    (execute_query b).2.getLast? = some DBEvent.closeConn := by
  obtain ⟨co, eo, cn, rr, cm⟩ := b
  simp only at h
  subst h
  rcases eo with e | u
  · exact ⟨rfl, rfl⟩
  · rcases cn with _ | cols <;> rcases cm with e | u <;> exact ⟨rfl, rfl⟩

/-- Witness for C1 at a concrete behaviour: a call whose commit fails still
opens the connection first and closes it last. -/
theorem execute_query_always_closes_witness :
    commitFailBehavior.connectOutcome = Except.ok () ∧
    ((execute_query commitFailBehavior).2.head? = some DBEvent.openConn ∧
      (execute_query commitFailBehavior).2.getLast? = some DBEvent.closeConn) :=
  ⟨rfl, execute_query_always_closes commitFailBehavior rfl⟩

/-- Claim C5: when connection, execution and commit all succeed,
`execute_query` returns — for a statement producing a result set — exactly
the rows the database produced, in database order, each as a mapping whose
keys are exactly the query's output column names; for a statement with no
result set it returns `none`; and in both cases the commit is in the event
trace before the connection closes. -/
theorem execute_query_rows (b : DBBehavior)
    (hco : b.connectOutcome = Except.ok ())
    (hex : b.execOutcome = Except.ok ())
    (hcm : b.commitOutcome = Except.ok ()) :
    (∀ cols, b.colNames = some cols →
      (execute_query b).1 =
        Except.ok (some (b.rawRows.map (fun r => cols.zip r))) ∧
      (∀ r, r ∈ b.rawRows → cols.length = r.length →
        (cols.zip r).map Prod.fst = cols)) ∧
    (b.colNames = none → (execute_query b).1 = Except.ok none) ∧
    ((execute_query b).2.getLast? = some DBEvent.closeConn ∧
      DBEvent.commit ∈ (execute_query b).2) := by
  obtain ⟨co, eo, cn, rr, cm⟩ := b
  simp only at hco hex hcm
  subst hco; subst hex; subst hcm
  refine ⟨?_, ?_, ?_⟩
  · intro cols hcols
    simp only at hcols
    subst hcols
    refine ⟨rfl, ?_⟩
    intro r _ hlen
    exact List.map_fst_zip cols r (le_of_eq hlen)
  · intro hnone
    simp only at hnone
    subst hnone
    rfl
  · rcases cn with _ | cols <;>
      exact ⟨rfl, by simp [execute_query]⟩

/-- Witness for C5 at a concrete fully successful behaviour: the two rows
come back in order as mappings keyed by the two column names. -/
theorem execute_query_rows_witness :
    okBehavior.connectOutcome = Except.ok () ∧
    okBehavior.execOutcome = Except.ok () ∧
    okBehavior.commitOutcome = Except.ok () ∧
    okBehavior.colNames = some ["neighborhood_name", "longitude"] ∧
    (execute_query okBehavior).1 =
      Except.ok (some
        [[("neighborhood_name", Json.str "Five Points"), ("longitude", Json.num 1)],
          [("neighborhood_name", Json.str "Highland"), ("longitude", Json.num 2)]]) :=
  ⟨rfl, rfl, rfl, rfl, by
    have h := (execute_query_rows okBehavior rfl rfl rfl).1
      ["neighborhood_name", "longitude"] rfl
    exact h.1⟩

theorem charListLe_total (a : List Char) :
    ∀ b, charListLe a b = true ∨ charListLe b a = true := by
  induction a with
  | nil => intro b; left; rfl
  | cons c cs ih =>
    intro b
    cases b with
    | nil => right; rfl
    | cons d ds =>
      by_cases h1 : c.val.toNat < d.val.toNat
      · left; simp [charListLe, h1]
      · by_cases h2 : d.val.toNat < c.val.toNat
        · right; simp [charListLe, h1, h2]
        · rcases ih ds with h | h
          · left; simp [charListLe, h1, h2, h]
          · right; simp [charListLe, h1, h2, h]

theorem charListLe_trans (a : List Char) :
    ∀ b c, charListLe a b = true → charListLe b c = true →
      charListLe a c = true := by
  induction a with
  | nil => intro b c _ _; rfl
  | cons x xs ih =>
    intro b c hab hbc
    cases b with
    | nil => simp [charListLe] at hab
    | cons y ys =>
      cases c with
      | nil => simp [charListLe] at hbc
      | cons z zs =>
        simp only [charListLe] at hab hbc ⊢
        by_cases hxy : x.val.toNat < y.val.toNat <;>
          by_cases hyz : y.val.toNat < z.val.toNat <;>
          by_cases hyx : y.val.toNat < x.val.toNat <;>
          by_cases hzy : z.val.toNat < y.val.toNat <;>
          simp [hxy, hyz, hyx, hzy] at hab hbc ⊢ <;>
          first
            | omega
            | (have hxz : x.val.toNat = z.val.toNat := by omega
               simp [hxz, Nat.lt_irrefl] at hab hbc ⊢
               exact ih ys zs hab hbc)

/-- Reading the five keys back out of the row dicts the query produced
always succeeds and yields the response dicts, in order. -/
theorem buildLocationData_rowDicts (es : List LocationEntry) :
    buildLocationData (es.map rowDictOf) =
      Except.ok (es.map (fun e => Json.obj (entryAssoc e))) := by
  induction es with
  | nil => rfl
  | cons e rest ih =>
      show (buildLocationData (rest.map rowDictOf)).bind
          (fun tail => Except.ok (Json.obj (entryAssoc e) :: tail)) =
        Except.ok (Json.obj (entryAssoc e) ::
          rest.map (fun x => Json.obj (entryAssoc x)))
      rw [ih]
      rfl

/-- The endpoint's success path produces the rendered data entries. -/
theorem buildLocationData_runAverageQuery (db : Database) :
    buildLocationData (runAverageQuery db) =
      Except.ok ((dataEntries db).map (fun e => Json.obj (entryAssoc e))) :=
  buildLocationData_rowDicts (dataEntries db)

/-- Every produced entry comes from a distinct GROUP BY key present in the
join, and its fields are that key's name, averages and coordinates. -/
theorem mem_dataEntries (db : Database) (e : LocationEntry)
    (he : e ∈ dataEntries db) :
    (e.neighborhood_name, e.longitude, e.latitude) ∈ (joinedRows db).map keyOf ∧
    e.average_rating =
      listAvg ((groupFor db (e.neighborhood_name, e.longitude, e.latitude)).map
        (fun p => p.1.review_scores_rating)) ∧
    e.average_price =
      listAvg ((groupFor db (e.neighborhood_name, e.longitude, e.latitude)).map
        (fun p => p.1.price)) := by
  unfold dataEntries at he
  obtain ⟨k, hk, rfl⟩ := List.mem_map.mp he
  have hk2 : k ∈ (joinedRows db).map keyOf :=
    List.mem_dedup.mp
      ((List.Perm.mem_iff (List.perm_insertionSort keyLE _)).mp hk)
  exact ⟨hk2, rfl, rfl⟩

/-- Reduction of the handler on rows whose processing succeeds. -/
theorem get_average_ratings_ok_of_build (g : Json)
    (rows : List (List (String × Json))) (locs : List Json)
    (h : buildLocationData rows = Except.ok locs) :
    get_average_ratings (some g) (Except.ok rows) =
      ⟨200, Json.obj [("data", Json.arr locs), ("geojson", g)], true⟩ := by
  have hred : get_average_ratings (some g) (Except.ok rows) =
      match buildLocationData rows with
      | Except.error e =>
          ⟨500, Json.obj [("error", Json.str e)], true⟩
      | Except.ok locationData =>
          ⟨200, Json.obj [("data", Json.arr locationData), ("geojson", g)], true⟩ := rfl
  rw [hred, h]

/-- Reduction of the handler on rows whose processing raises. -/
theorem get_average_ratings_build_error (g : Json)
    (rows : List (List (String × Json))) (e : String)
    (h : buildLocationData rows = Except.error e) :
    get_average_ratings (some g) (Except.ok rows) =
      ⟨500, Json.obj [("error", Json.str e)], true⟩ := by
  have hred : get_average_ratings (some g) (Except.ok rows) =
      match buildLocationData rows with
      | Except.error e =>
          ⟨500, Json.obj [("error", Json.str e)], true⟩
      | Except.ok locationData =>
          ⟨200, Json.obj [("data", Json.arr locationData), ("geojson", g)], true⟩ := rfl
  rw [hred, h]

/-- Claim C2: when the boundary collection is loaded and the query
succeeds, the endpoint answers HTTP 200 with the `{data, geojson}`
envelope; the data sequence is ordered by neighborhood name ascending,
and each entry's `average_rating` / `average_price` is the arithmetic
mean of the rating / price over the joined listings rows of that entry's
locations row (its neighborhood name and coordinates). -/
theorem get_average_ratings_success (g : Json) (db : Database) :
    (get_average_ratings (some g) (Except.ok (runAverageQuery db))).status = 200 ∧
    (get_average_ratings (some g) (Except.ok (runAverageQuery db))).body =
      Json.obj
        [("data", Json.arr ((dataEntries db).map (fun e => Json.obj (entryAssoc e)))),
          ("geojson", g)] ∧
    (dataEntries db).Pairwise
      (fun e e' => strLe e.neighborhood_name e'.neighborhood_name) ∧
    (∀ e ∈ dataEntries db,
      e.average_rating =
        listAvg ((groupFor db (e.neighborhood_name, e.longitude, e.latitude)).map
          (fun p => p.1.review_scores_rating)) ∧
      e.average_price =
        listAvg ((groupFor db (e.neighborhood_name, e.longitude, e.latitude)).map
          (fun p => p.1.price))) := by
  have hb :
      get_average_ratings (some g) (Except.ok (runAverageQuery db)) =
        ⟨200,
          Json.obj
            [("data", Json.arr ((dataEntries db).map (fun e => Json.obj (entryAssoc e)))),
              ("geojson", g)], true⟩ :=
    get_average_ratings_ok_of_build g _ _ (buildLocationData_runAverageQuery db)
  refine ⟨by rw [hb], by rw [hb], ?_, ?_⟩
  · unfold dataEntries
    rw [List.pairwise_map]
    haveI : IsTotal (String × ℚ × ℚ) keyLE :=
      ⟨fun a b => charListLe_total a.1.data b.1.data⟩
    haveI : IsTrans (String × ℚ × ℚ) keyLE :=
      ⟨fun a b c hab hbc => charListLe_trans a.1.data b.1.data c.1.data hab hbc⟩
    exact List.sorted_insertionSort keyLE _
  · intro e he
    exact ⟨(mem_dataEntries db e he).2.1, (mem_dataEntries db e he).2.2⟩

/-- Witness for C2 at the concrete database `dbEx`: the response is 200
and the "Five Points" entry's average rating is the mean over its joined
listings. -/
theorem get_average_ratings_success_witness :
    (get_average_ratings (some gEx) (Except.ok (runAverageQuery dbEx))).status = 200 ∧
    mkEntry dbEx fivePointsKey ∈ dataEntries dbEx ∧
    (mkEntry dbEx fivePointsKey).average_rating =
      listAvg ((groupFor dbEx fivePointsKey).map
        (fun p => p.1.review_scores_rating)) := by
  have hkeys : sortedKeys dbEx = [fivePointsKey, highlandKey] := rfl
  have hmem : mkEntry dbEx fivePointsKey ∈ dataEntries dbEx := by
    unfold dataEntries
    rw [hkeys]
    exact List.mem_map_of_mem _ (List.mem_cons_self _ _)
  exact ⟨(get_average_ratings_success gEx dbEx).1, hmem,
    ((get_average_ratings_success gEx dbEx).2.2.2 _ hmem).1⟩

/-- Claim C3: when the boundary file failed to load at startup, every
request to `/locations/average` gets HTTP 500 with exactly the body
`{"error": "GeoJSON data not found"}`, the database query is never
attempted, and `GET /` still answers 200 with the fixed greeting. -/
theorem missing_geojson_fixed_500 (contents : Json)
    (outcomes : List (Except String (List (List (String × Json))))) :
    loadGeoJson false contents = none ∧
    (∀ r ∈ serveRequests (loadGeoJson false contents) outcomes,
      r.status = 500 ∧
      r.body = Json.obj [("error", Json.str "GeoJSON data not found")] ∧
      r.queryAttempted = false) ∧
    hello_world = (200, "Hello, World!") := by
  refine ⟨rfl, ?_, rfl⟩
  intro r hr
  obtain ⟨o, _, rfl⟩ := List.mem_map.mp hr
  exact ⟨rfl, rfl, rfl⟩

/-- Witness for C3: a request arriving while the boundary file is missing
(even one whose database call would fail too) gets the fixed 500 body. -/
theorem missing_geojson_fixed_500_witness :
    loadGeoJson false Json.null = none ∧
    ((get_average_ratings (loadGeoJson false Json.null)
        (Except.error "db down")).status = 500 ∧
      (get_average_ratings (loadGeoJson false Json.null)
        (Except.error "db down")).body =
        Json.obj [("error", Json.str "GeoJSON data not found")] ∧
      (get_average_ratings (loadGeoJson false Json.null)
        (Except.error "db down")).queryAttempted = false) ∧
    hello_world = (200, "Hello, World!") := by
  have h := missing_geojson_fixed_500 Json.null [Except.error "db down"]
  exact ⟨h.1, h.2.1 _ (List.mem_map_of_mem _ (List.mem_singleton_self _)), h.2.2⟩

/-- Claim C4: with the boundary collection loaded, any exception from the
query or from the row-processing loop collapses to HTTP 500 with body
`{"error": m}` where `m` is the exception's text, with no distinction
between failure kinds; and the handler is stateless, so a later request
against a healthy database still succeeds with 200. -/
theorem get_average_ratings_error_500 (g : Json)
    (out : Except String (List (List (String × Json)))) (e : String)
    (h : out = Except.error e ∨
      ∃ rows, out = Except.ok rows ∧ buildLocationData rows = Except.error e) :
    (get_average_ratings (some g) out).status = 500 ∧
    (get_average_ratings (some g) out).body = Json.obj [("error", Json.str e)] ∧
    (∀ db : Database,
      (get_average_ratings (some g) (Except.ok (runAverageQuery db))).status = 200) := by
  have hok : ∀ db : Database,
      (get_average_ratings (some g) (Except.ok (runAverageQuery db))).status = 200 := by
    intro db
    rw [get_average_ratings_ok_of_build g _ _ (buildLocationData_runAverageQuery db)]
  rcases h with h | ⟨rows, hrows, hbuild⟩
  · subst h
    exact ⟨rfl, rfl, hok⟩
  · subst hrows
    rw [get_average_ratings_build_error g rows e hbuild]
    exact ⟨rfl, rfl, hok⟩

/-- Witness for C4: a raised connection error surfaces verbatim as the
500 body, and the same process then serves a healthy request with 200. -/
theorem get_average_ratings_error_500_witness :
    (get_average_ratings (some gEx) (Except.error "connection refused")).status = 500 ∧
    (get_average_ratings (some gEx) (Except.error "connection refused")).body =
      Json.obj [("error", Json.str "connection refused")] ∧
    (get_average_ratings (some gEx) (Except.ok (runAverageQuery dbEx))).status = 200 := by
  have h := get_average_ratings_error_500 gEx (Except.error "connection refused")
    "connection refused" (Or.inl rfl)
  exact ⟨h.1, h.2.1, h.2.2 dbEx⟩

/-- Claim C6: in a successful response, every data entry's neighborhood
appears in the inner join of `listings` to `locations` (so a neighborhood
absent from the join never appears, whatever the boundary collection
holds), and each entry's averages are sum over the entry's whole joined
group divided by that group's size — no filtering or partial
aggregation. -/
theorem dataEntries_join_invariant (g : Json) (db : Database) :
    (get_average_ratings (some g) (Except.ok (runAverageQuery db))).body =
      Json.obj
        [("data", Json.arr ((dataEntries db).map (fun e => Json.obj (entryAssoc e)))),
          ("geojson", g)] ∧
    (∀ e ∈ dataEntries db,
      (∃ p, p ∈ joinedRows db ∧ p.2.neighborhood_name = e.neighborhood_name) ∧
      e.average_rating =
        ((groupFor db (e.neighborhood_name, e.longitude, e.latitude)).map
          (fun p => p.1.review_scores_rating)).sum /
          ((groupFor db (e.neighborhood_name, e.longitude, e.latitude)).length : ℚ) ∧
      e.average_price =
        ((groupFor db (e.neighborhood_name, e.longitude, e.latitude)).map
          (fun p => p.1.price)).sum /
          ((groupFor db (e.neighborhood_name, e.longitude, e.latitude)).length : ℚ)) ∧
    (∀ name : String,
      (∀ p ∈ joinedRows db, p.2.neighborhood_name ≠ name) →
      ∀ e ∈ dataEntries db, e.neighborhood_name ≠ name) := by
  have hmem : ∀ e ∈ dataEntries db,
      ∃ p, p ∈ joinedRows db ∧ p.2.neighborhood_name = e.neighborhood_name := by
    intro e he
    obtain ⟨p, hp, hkeq⟩ := List.mem_map.mp (mem_dataEntries db e he).1
    exact ⟨p, hp, congrArg Prod.fst hkeq⟩
  refine ⟨?_, ?_, ?_⟩
  · rw [get_average_ratings_ok_of_build g _ _ (buildLocationData_runAverageQuery db)]
  · intro e he
    have h2 := (mem_dataEntries db e he).2
    refine ⟨hmem e he, ?_, ?_⟩
    · rw [h2.1]
      unfold listAvg
      rw [List.length_map]
    · rw [h2.2]
      unfold listAvg
      rw [List.length_map]
  · intro name hname e he hcontra
    obtain ⟨p, hp, hpname⟩ := hmem e he
    exact hname p hp (hpname.trans hcontra)

/-- Witness for C6: the "Highland" entry of `dbEx` has a joined row, its
average is the group's sum over its size, and the name "Atlantis", which
has no joined row, appears in no entry. -/
theorem dataEntries_join_invariant_witness :
    mkEntry dbEx highlandKey ∈ dataEntries dbEx ∧
    (∃ p, p ∈ joinedRows dbEx ∧
      p.2.neighborhood_name = (mkEntry dbEx highlandKey).neighborhood_name) ∧
    (mkEntry dbEx highlandKey).average_rating =
      ((groupFor dbEx highlandKey).map (fun p => p.1.review_scores_rating)).sum /
        ((groupFor dbEx highlandKey).length : ℚ) ∧
    (∀ e ∈ dataEntries dbEx, e.neighborhood_name ≠ "Atlantis") := by
  have hkeys : sortedKeys dbEx = [fivePointsKey, highlandKey] := rfl
  have hmem : mkEntry dbEx highlandKey ∈ dataEntries dbEx := by
    unfold dataEntries
    rw [hkeys]
    exact List.mem_map_of_mem _ (List.mem_cons_of_mem _ (List.mem_cons_self _ _))
  have h := dataEntries_join_invariant gEx dbEx
  have hat : ∀ p ∈ joinedRows dbEx, p.2.neighborhood_name ≠ "Atlantis" := by decide
  exact ⟨hmem, (h.2.1 _ hmem).1, (h.2.1 _ hmem).2.1, h.2.2 "Atlantis" hat⟩

/-- A successful lookup determines the total lookup's value. -/
theorem dictGetD_eq_of_ok (d : List (String × Json)) (k : String) (v : Json)
    (h : dictGet d k = Except.ok v) : dictGetD d k = v := by
  unfold dictGet at h
  unfold dictGetD
  cases hf : d.find? (fun kv => kv.1 == k) with
  | none => rw [hf] at h; exact absurd h (by simp)
  | some kv => rw [hf] at h; injection h

/-- A comprehension over aggregates that all hold key `k` yields their
values in order. -/
theorem lookupEach_ok (k : String) (locations : List (List (String × Json)))
    (h : ∀ l ∈ locations, ∃ v, dictGet l k = Except.ok v) :
    lookupEach k locations =
      Except.ok (locations.map (fun l => dictGetD l k)) := by
  induction locations with
  | nil => rfl
  | cons l ls ih =>
    obtain ⟨v, hv⟩ := h l (List.mem_cons_self _ _)
    show (dictGet l k).bind
        (fun v => (lookupEach k ls).bind (fun vs => Except.ok (v :: vs))) = _
    rw [hv, ih (fun l' hl' => h l' (List.mem_cons_of_mem _ hl')),
      List.map_cons, dictGetD_eq_of_ok l k v hv]
    rfl

/-- A comprehension over aggregates one of which lacks key `k` raises. -/
theorem lookupEach_error (k : String) (locations : List (List (String × Json)))
    (h : ∃ l ∈ locations, l.find? (fun kv => kv.1 == k) = none) :
    ∃ e, lookupEach k locations = Except.error e := by
  induction locations with
  | nil => obtain ⟨l, hl, _⟩ := h; exact absurd hl (List.not_mem_nil l)
  | cons l ls ih =>
    cases hd : dictGet l k with
    | error e =>
      refine ⟨e, ?_⟩
      show (dictGet l k).bind
          (fun v => (lookupEach k ls).bind (fun vs => Except.ok (v :: vs))) = _
      rw [hd]
      rfl
    | ok v =>
      obtain ⟨l', hl', hnone⟩ := h
      rcases List.mem_cons.mp hl' with rfl | hl'
      · exact absurd hd (by unfold dictGet; rw [hnone]; simp)
      · obtain ⟨e, he⟩ := ih ⟨l', hl', hnone⟩
        refine ⟨e, ?_⟩
        show (dictGet l k).bind
            (fun v => (lookupEach k ls).bind (fun vs => Except.ok (v :: vs))) = _
        rw [hd, he]
        rfl

/-- A singleton comprehension over aggregates that all hold key `k`. -/
theorem lookupEachSingleton_ok (k : String)
    (locations : List (List (String × Json)))
    (h : ∀ l ∈ locations, ∃ v, dictGet l k = Except.ok v) :
    lookupEachSingleton k locations =
      Except.ok (locations.map (fun l => [dictGetD l k])) := by
  induction locations with
  | nil => rfl
  | cons l ls ih =>
    obtain ⟨v, hv⟩ := h l (List.mem_cons_self _ _)
    show (dictGet l k).bind
        (fun v => (lookupEachSingleton k ls).bind
          (fun vs => Except.ok ([v] :: vs))) = _
    rw [hv, ih (fun l' hl' => h l' (List.mem_cons_of_mem _ hl')),
      List.map_cons, dictGetD_eq_of_ok l k v hv]
    rfl

/-- One table row over descriptors all of whose keys are present. -/
theorem rowCells_ok (l : List (String × Json)) (keys : List ColumnKey)
    (h : ∀ k ∈ keys, ∃ v, dictGet l k.value = Except.ok v) :
    rowCells l keys = Except.ok (keys.map (fun k => dictGetD l k.value)) := by
  induction keys with
  | nil => rfl
  | cons k ks ih =>
    obtain ⟨v, hv⟩ := h k (List.mem_cons_self _ _)
    show (dictGet l k.value).bind
        (fun v => (rowCells l ks).bind (fun vs => Except.ok (v :: vs))) = _
    rw [hv, ih (fun k' hk' => h k' (List.mem_cons_of_mem _ hk')),
      List.map_cons, dictGetD_eq_of_ok l k.value v hv]
    rfl

/-- One table row over descriptors one of whose keys is absent raises. -/
theorem rowCells_error (l : List (String × Json)) (keys : List ColumnKey)
    (h : ∃ k ∈ keys, l.find? (fun kv => kv.1 == k.value) = none) :
    ∃ e, rowCells l keys = Except.error e := by
  induction keys with
  | nil => obtain ⟨k, hk, _⟩ := h; exact absurd hk (List.not_mem_nil k)
  | cons k ks ih =>
    cases hd : dictGet l k.value with
    | error e =>
      refine ⟨e, ?_⟩
      show (dictGet l k.value).bind
          (fun v => (rowCells l ks).bind (fun vs => Except.ok (v :: vs))) = _
      rw [hd]
      rfl
    | ok v =>
      obtain ⟨k', hk', hnone⟩ := h
      rcases List.mem_cons.mp hk' with rfl | hk'
      · exact absurd hd (by unfold dictGet; rw [hnone]; simp)
      · obtain ⟨e, he⟩ := ih ⟨k', hk', hnone⟩
        refine ⟨e, ?_⟩
        show (dictGet l k.value).bind
            (fun v => (rowCells l ks).bind (fun vs => Except.ok (v :: vs))) = _
        rw [hd, he]
        rfl

/-- All body rows over aggregates that hold every requested key. -/
theorem bodyRowsOf_ok (keys : List ColumnKey)
    (locations : List (List (String × Json)))
    (h : ∀ l ∈ locations, ∀ k ∈ keys, ∃ v, dictGet l k.value = Except.ok v) :
    bodyRowsOf keys locations =
      Except.ok (locations.map (fun l => keys.map (fun k => dictGetD l k.value))) := by
  induction locations with
  | nil => rfl
  | cons l ls ih =>
    show (rowCells l keys).bind
        (fun r => (bodyRowsOf keys ls).bind (fun rs => Except.ok (r :: rs))) = _
    rw [rowCells_ok l keys (h l (List.mem_cons_self _ _)),
      ih (fun l' hl' => h l' (List.mem_cons_of_mem _ hl')), List.map_cons]
    rfl

/-- Body-row construction raises when some aggregate lacks some key. -/
theorem bodyRowsOf_error (keys : List ColumnKey)
    (locations : List (List (String × Json)))
    (h : ∃ l ∈ locations, ∃ k ∈ keys, l.find? (fun kv => kv.1 == k.value) = none) :
    ∃ e, bodyRowsOf keys locations = Except.error e := by
  induction locations with
  | nil => obtain ⟨l, hl, _⟩ := h; exact absurd hl (List.not_mem_nil l)
  | cons l ls ih =>
    cases hr : rowCells l keys with
    | error e =>
      refine ⟨e, ?_⟩
      show (rowCells l keys).bind
          (fun r => (bodyRowsOf keys ls).bind (fun rs => Except.ok (r :: rs))) = _
      rw [hr]
      rfl
    | ok r =>
      obtain ⟨l', hl', hkey⟩ := h
      rcases List.mem_cons.mp hl' with heq | hl'
      · rw [heq] at hkey
        obtain ⟨e, he⟩ := rowCells_error l keys hkey
        rw [he] at hr
        exact absurd hr (by simp)
      · obtain ⟨e, he⟩ := ih ⟨l', hl', hkey⟩
        refine ⟨e, ?_⟩
        show (rowCells l keys).bind
            (fun r => (bodyRowsOf keys ls).bind (fun rs => Except.ok (r :: rs))) = _
        rw [hr, he]
        rfl

/-- Claim C7: for aggregates holding every requested key, the rendered
table has exactly one header row whose cells are the descriptor labels in
order (k cells for k descriptors), and one body row per aggregate (n rows
for n aggregates), each with k cells holding the lookup of the
descriptor's value key on that aggregate. -/
theorem create_table_shape (locations : List (List (String × Json)))
    (keys : List ColumnKey)
    (h : ∀ l ∈ locations, ∀ k ∈ keys, ∃ v, dictGet l k.value = Except.ok v) :
    create_table locations keys =
      Except.ok
        ⟨[keys.map (fun k => k.label)],
          locations.map (fun l => keys.map (fun k => dictGetD l k.value))⟩ ∧
    (keys.map (fun k => k.label)).length = keys.length ∧
    (locations.map (fun l => keys.map (fun k => dictGetD l k.value))).length =
      locations.length ∧
    (∀ row ∈ locations.map (fun l => keys.map (fun k => dictGetD l k.value)),
      row.length = keys.length) := by
  refine ⟨?_, List.length_map _ _, List.length_map _ _, ?_⟩
  · show (bodyRowsOf keys locations).bind
        (fun rows => Except.ok (HtmlTable.mk [keys.map (fun k => k.label)] rows)) =
      Except.ok
        (HtmlTable.mk [keys.map (fun k => k.label)]
          (locations.map (fun l => keys.map (fun k => dictGetD l k.value))))
    rw [bodyRowsOf_ok keys locations h]
    rfl
  · intro row hrow
    obtain ⟨l, _, rfl⟩ := List.mem_map.mp hrow
    exact List.length_map _ _

/-- Witness for C7 at 2 aggregates and the layout's 3 descriptors: one
header row of the 3 labels and 2 body rows of 3 cells each. -/
theorem create_table_shape_witness :
    create_table [aggA, aggB] layoutTableKeys =
      Except.ok
        ⟨[layoutTableKeys.map (fun k => k.label)],
          [aggA, aggB].map
            (fun l => layoutTableKeys.map (fun k => dictGetD l k.value))⟩ ∧
    (layoutTableKeys.map (fun k => k.label)).length = 3 ∧
    ([aggA, aggB].map
      (fun l => layoutTableKeys.map (fun k => dictGetD l k.value))).length = 2 := by
  have h : ∀ l ∈ [aggA, aggB], ∀ k ∈ layoutTableKeys,
      ∃ v, dictGet l k.value = Except.ok v := by
    intro l hl k hk
    fin_cases hl <;> fin_cases hk <;> exact ⟨_, rfl⟩
  exact ⟨(create_table_shape [aggA, aggB] layoutTableKeys h).1, rfl, rfl⟩

/-- Claim C9: if some aggregate lacks some requested value key, the table
does not render with a blank cell or a substitute marker — `create_table`
raises a lookup error. -/
theorem create_table_missing_key_fatal (locations : List (List (String × Json)))
    (keys : List ColumnKey)
    (h : ∃ l ∈ locations, ∃ k ∈ keys, l.find? (fun kv => kv.1 == k.value) = none) :
    ∃ e, create_table locations keys = Except.error e := by
  obtain ⟨e, he⟩ := bodyRowsOf_error keys locations h
  refine ⟨e, ?_⟩
  show (bodyRowsOf keys locations).bind
      (fun rows => Except.ok (HtmlTable.mk [keys.map (fun k => k.label)] rows)) =
    Except.error e
  rw [he]
  rfl

/-- Witness for C9: an aggregate lacking `average_price` makes the whole
table construction fail. -/
theorem create_table_missing_key_fatal_witness :
    aggNoPrice.find? (fun kv => kv.1 == "average_price") = none ∧
    ∃ e, create_table [aggA, aggNoPrice] layoutTableKeys = Except.error e :=
  ⟨rfl,
    create_table_missing_key_fatal [aggA, aggNoPrice] layoutTableKeys
      ⟨aggNoPrice, List.mem_cons_of_mem _ (List.mem_cons_self _ _),
        ⟨"Average Price", "average_price"⟩,
        List.mem_cons_of_mem _ (List.mem_cons_of_mem _ (List.mem_cons_self _ _)),
        rfl⟩⟩

/-- Counterexample to claim C8 as stated: the map is not built by matching
aggregates on the key `neighborhood` — an aggregate carrying that key
(with the rating and price keys present) makes `create_map` raise a
KeyError on the key it actually reads, `neighbourhood`. -/
theorem create_map_not_neighborhood_key :
    create_map [aggAmerican] gEx = Except.error "KeyError: neighbourhood" := rfl

/-- Claim C8 as amended: `create_map` matches boundary features to
aggregates by the `neighbourhood` key (feature id key
`properties.neighbourhood`), uses `average_rating` as the fill-color
value `z`, carries the neighborhood name with rating and price formatted
to two decimal places in the hover template with price as non-color
`customdata`, and sets a fixed viewport center, zoom and style
independent of the input data. -/
theorem create_map_spec (locations : List (List (String × Json))) (g : Json)
    (h : ∀ l ∈ locations,
      (∃ v, dictGet l "neighbourhood" = Except.ok v) ∧
      (∃ v, dictGet l "average_rating" = Except.ok v) ∧
      (∃ v, dictGet l "average_price" = Except.ok v)) :
    create_map locations g =
      Except.ok
        { geojson := g
          locations := locations.map (fun l => dictGetD l "neighbourhood")
          z := locations.map (fun l => dictGetD l "average_rating")
          featureidkey := "properties.neighbourhood"
          colorscale := "Viridis"
          customdata := locations.map (fun l => [dictGetD l "average_price"])
          mapbox_style := "carto-positron"
          mapbox_zoom := 10
          mapbox_center_lat := 397392 / 10000
          mapbox_center_lon := -1049903 / 10000
          hovertemplate := "<b>%\x7blocation\x7d</b><br>Average Rating: %\x7bz:.2f\x7d<br>Average Price: %\x7bcustomdata[0]:.2f\x7d" } := by
  have h1 := lookupEach_ok "neighbourhood" locations (fun l hl => (h l hl).1)
  have h2 := lookupEach_ok "average_rating" locations (fun l hl => (h l hl).2.1)
  have h3 := lookupEachSingleton_ok "average_price" locations (fun l hl => (h l hl).2.2)
  show (lookupEach "neighbourhood" locations).bind (fun locNames =>
      (lookupEach "average_rating" locations).bind (fun zs =>
        (lookupEachSingleton "average_price" locations).bind (fun cds =>
          Except.ok
            (ChoroplethMap.mk g locNames zs "properties.neighbourhood" "Viridis"
              cds "carto-positron" 10 (397392 / 10000) (-1049903 / 10000)
              "<b>%\x7blocation\x7d</b><br>Average Rating: %\x7bz:.2f\x7d<br>Average Price: %\x7bcustomdata[0]:.2f\x7d")))) =
    Except.ok
      (ChoroplethMap.mk g (locations.map (fun l => dictGetD l "neighbourhood"))
        (locations.map (fun l => dictGetD l "average_rating"))
        "properties.neighbourhood" "Viridis"
        (locations.map (fun l => [dictGetD l "average_price"])) "carto-positron"
        10 (397392 / 10000) (-1049903 / 10000)
        "<b>%\x7blocation\x7d</b><br>Average Rating: %\x7bz:.2f\x7d<br>Average Price: %\x7bcustomdata[0]:.2f\x7d")
  rw [h1, h2, h3]
  rfl

/-- Witness for C8's amended statement at two concrete aggregates. -/
theorem create_map_spec_witness :
    create_map [aggA, aggB] gEx =
      Except.ok
        { geojson := gEx
          locations := [aggA, aggB].map (fun l => dictGetD l "neighbourhood")
          z := [aggA, aggB].map (fun l => dictGetD l "average_rating")
          featureidkey := "properties.neighbourhood"
          colorscale := "Viridis"
          customdata := [aggA, aggB].map (fun l => [dictGetD l "average_price"])
          mapbox_style := "carto-positron"
          mapbox_zoom := 10
          mapbox_center_lat := 397392 / 10000
          mapbox_center_lon := -1049903 / 10000
          hovertemplate := "<b>%\x7blocation\x7d</b><br>Average Rating: %\x7bz:.2f\x7d<br>Average Price: %\x7bcustomdata[0]:.2f\x7d" } := by
  have h : ∀ l ∈ [aggA, aggB],
      (∃ v, dictGet l "neighbourhood" = Except.ok v) ∧
      (∃ v, dictGet l "average_rating" = Except.ok v) ∧
      (∃ v, dictGet l "average_price" = Except.ok v) := by
    intro l hl
    fin_cases hl <;> exact ⟨⟨_, rfl⟩, ⟨_, rfl⟩, ⟨_, rfl⟩⟩
  exact create_map_spec [aggA, aggB] gEx h

/-- Claim C10: the server's data entries carry the key
`neighborhood_name` and no `neighbourhood` key, while `create_map` and
the layout's first table descriptor read `neighbourhood`; hence on every
non-empty data sequence the server actually produces, building the map or
the table fails with a key-lookup error. -/
theorem server_client_key_mismatch (db : Database) (g : Json)
    (h : serverAggregates db ≠ []) :
    (∀ a ∈ serverAggregates db,
      (∃ v, dictGet a "neighborhood_name" = Except.ok v) ∧
      dictGet a "neighbourhood" = Except.error "KeyError: neighbourhood") ∧
    create_map (serverAggregates db) g =
      Except.error "KeyError: neighbourhood" ∧
    create_table (serverAggregates db) layoutTableKeys =
      Except.error "KeyError: neighbourhood" := by
  obtain ⟨a, t, hl⟩ := List.exists_cons_of_ne_nil h
  obtain ⟨e, _, hae⟩ := List.mem_map.mp
    (show a ∈ serverAggregates db from hl ▸ List.mem_cons_self _ _)
  refine ⟨?_, ?_, ?_⟩
  · intro a' ha'
    obtain ⟨e', _, hae'⟩ := List.mem_map.mp ha'
    subst hae'
    exact ⟨⟨Json.str e'.neighborhood_name, rfl⟩, rfl⟩
  · rw [hl, ← hae]
    rfl
  · rw [hl, ← hae]
    rfl

/-- Witness for C10: the response for `dbEx` is non-empty, and both the
map and the table the client would build from it fail on
`neighbourhood`. -/
theorem server_client_key_mismatch_witness :
    serverAggregates dbEx ≠ [] ∧
    create_map (serverAggregates dbEx) gEx =
      Except.error "KeyError: neighbourhood" ∧
    create_table (serverAggregates dbEx) layoutTableKeys =
      Except.error "KeyError: neighbourhood" := by
  have hkeys : sortedKeys dbEx = [fivePointsKey, highlandKey] := rfl
  have hne : serverAggregates dbEx ≠ [] := by
    unfold serverAggregates dataEntries
    rw [hkeys]
    simp
  have h := server_client_key_mismatch dbEx gEx hne
  exact ⟨hne, h.2.1, h.2.2⟩

end AirbnbDashboard
